import Mathlib

/- Verification development for the water-sql STORET parser/exporter
   (src/parse_state_data.py, with the station-file variant in
   src/parse_washington_data.py).

   Modelling conventions:
   * Python strings are modelled as lists of characters (PyStr := List Char);
     str.strip() is pyStrip, str.split(c) is pySplit c, both following the
     Python semantics (strip removes the whitespace characters
     " \t\n\r\x0b\x0c" from both ends; split keeps empty parts and always
     returns at least one part).
   * A source file is modelled by its contents: none stands for a file whose
     open() raised (unreadable), some lines for the list of its lines.
   * Python dicts keyed by strings and filled in insertion order are modelled
     as insertion-ordered lists of records, with key lookup by equality; this
     matches dict preservation of insertion order and list(d.values()).
   * A raised exception (IndexError from row[i]) is modelled by Option: none
     is the raised exception propagating out of the loop. -/

namespace WaterSql

abbrev PyStr := List Char

/-- Shorthand to write a modelled Python string from a Lean string literal. -/
def str (s : String) : PyStr := s.data

/-- The characters Python str.strip() removes. -/
def pyIsSpace (c : Char) : Bool :=
  c = ' ' || c = '\t' || c = '\n' || c = '\r' || c = '\x0b' || c = '\x0c'

/-- Python str.strip(): drop whitespace from both ends. -/
def pyStrip (s : PyStr) : PyStr :=
  ((s.dropWhile pyIsSpace).reverse.dropWhile pyIsSpace).reverse

/-- Python str.split(sep) for a one-character separator: split at every
    occurrence, keeping empty parts; the result is never empty. -/
def pySplit (sep : Char) : PyStr → List PyStr
  | [] => [[]]
  | c :: cs =>
    match pySplit sep cs with
    | [] => [[c]]
    | a :: as => if c = sep then [] :: a :: as else (c :: a) :: as

/-- A data row: the list of (already stripped) fields. -/
abbrev Row := List PyStr

/-- Contents of one source file: none if open() raised, some lines otherwise. -/
abbrev FileContent := Option (List PyStr)

theorem pySplit_ne_nil (sep : Char) (s : PyStr) : pySplit sep s ≠ [] := by
  induction s with
  | nil => simp [pySplit]
  | cons c cs ih =>
    simp only [pySplit]
    cases h : pySplit sep cs with
    | nil => exact absurd h ih
    | cons a as => by_cases hc : c = sep <;> simp [hc]

/-- StateDataParser.parse_tab_delimited_file (parse_state_data.py lines 57-79):
    returns ([], []) when the file is unreadable or has fewer than two lines;
    otherwise the first line split on tabs and stripped is the header, the
    second line is discarded, and each non-blank later line becomes a row of
    stripped fields. -/
def parse_tab_delimited_file (content : FileContent) : List PyStr × List Row :=
  match content with
  | none => ([], [])
  | some lines =>
    if lines.length < 2 then ([], [])
    else
      ((pySplit '\t' (lines.headD [])).map pyStrip,
       (lines.drop 2).filterMap (fun line =>
         if (pyStrip line).isEmpty then none
         else some ((pySplit '\t' line).map pyStrip)))

/-- header_map = \x7bh: i for i, h in enumerate(headers)\x7d: the index of the
    last occurrence of a name in the header (a later duplicate key wins). -/
def buildHeaderMap (headers : List PyStr) (name : PyStr) : Option Nat :=
  headers.enum.foldl (fun acc p => if p.2 = name then some p.1 else acc) none

/-- The header-to-index mapping of one file. -/
abbrev HeaderMap := PyStr → Option Nat

/-- The field-access expression repeated inline in parse_state_data.py
    (e.g. lines 167-176 and 213-220):

      row[header_map.get(NAME, DFLT)].strip()
        if NAME in header_map and len(row) > header_map[NAME] else ''

    Because the guard requires NAME to be a key of header_map, the
    dictionary-get default DFLT can never be the index that is read; it is kept
    as an argument to mirror each call site. -/
def resolveField (hm : HeaderMap) (row : Row) (name : PyStr) (_dflt : Int) : PyStr :=
  match hm name with
  | some i => if i < row.length then pyStrip (row.getD i []) else []
  | none => []

/-- Python row[i] for an Int index (negative indexes count from the end). -/
def pyIndex (row : Row) (i : Int) : PyStr :=
  if 0 ≤ i then row.getD i.toNat [] else row.getD (row.length - (-i).toNat) []

/-- Whether Python row[i] is in bounds (row[i] raises IndexError otherwise). -/
def pyIndexValid (row : Row) (i : Int) : Bool :=
  if 0 ≤ i then i < (row.length : Int) else -i ≤ (row.length : Int)

/-- The column resolver as claim C1 and spec section 4.2 state it (claim-side
    definition, for comparison with resolveField): the value at the
    header-resolved index when the name is in the header and the row is long
    enough; otherwise the value at the positional default index when the row
    is long enough to contain it; otherwise the empty string. -/
def specResolveField (hm : HeaderMap) (row : Row) (name : PyStr) (dflt : Int) : PyStr :=
  match hm name with
  | some i =>
    if i < row.length then pyStrip (row.getD i [])
    else if pyIndexValid row dflt then pyStrip (pyIndex row dflt) else []
  | none => if pyIndexValid row dflt then pyStrip (pyIndex row dflt) else []

/-- The record reader as claim C7 states it (claim-side definition): for every
    readable file the first line, split on tabs and stripped, is the header,
    and the non-blank lines from the third onward are the rows. -/
def specRecordReaderClaim (content : FileContent) : List PyStr × List Row :=
  match content with
  | none => ([], [])
  | some lines =>
    ((pySplit '\t' (lines.headD [])).map pyStrip,
     ((lines.drop 2).filter (fun l => !(pyStrip l).isEmpty)).map
       (fun l => (pySplit '\t' l).map pyStrip))

/-- The record reader as claim C7 must be amended (claim-side definition): as
    the claim states it, except that a readable file with fewer than two lines
    yields an empty header and no rows. -/
def specRecordReaderAmended (content : FileContent) : List PyStr × List Row :=
  match content with
  | none => ([], [])
  | some lines =>
    if lines.length < 2 then ([], [])
    else
      ((pySplit '\t' (lines.headD [])).map pyStrip,
       ((lines.drop 2).filter (fun l => !(pyStrip l).isEmpty)).map
         (fun l => (pySplit '\t' l).map pyStrip))

structure ParamRec where
  code : PyStr
  short_name : PyStr
  long_name : PyStr
  deriving DecidableEq

structure StationRec where
  agency : PyStr
  station_id : PyStr
  station_name : PyStr
  agency_name : PyStr
  state : PyStr
  county : PyStr
  latitude : PyStr
  longitude : PyStr
  huc : PyStr
  station_type : PyStr
  description : PyStr
  deriving DecidableEq

structure ResultRec where
  agency : PyStr
  station_id : PyStr
  param_code : PyStr
  start_date : PyStr
  start_time : PyStr
  result_value : PyStr
  huc : PyStr
  sample_depth : PyStr
  deriving DecidableEq

/-- The body of the row loop of StateDataParser.parse_inventory_files
    (parse_state_data.py lines 114-129), acting on the insertion-ordered
    param_dict: rows with fewer than 3 fields are skipped; the code is
    row[0].strip(); empty or header-like codes are skipped; a code already
    present is skipped (first writer wins); otherwise the record is appended. -/
def processInvRow (d : List ParamRec) (row : Row) : List ParamRec :=
  if 3 ≤ row.length then
    let code := pyStrip (row.getD 0 [])
    let sname := if 1 < row.length then pyStrip (row.getD 1 []) else []
    let lname := if 2 < row.length then pyStrip (row.getD 2 []) else []
    if code.isEmpty || code == str "Code" || (str "---").isPrefixOf code then d
    else if d.any (fun p => p.code == code) then d
    else d ++ [{ code := code, short_name := sname, long_name := lname }]
  else d

/-- All inventory rows of all inventory files, processed in order
    (files whose name does not yield a county, or whose header is empty,
    contribute no rows and are absent from the row sequence). -/
def parse_inventory_rows (rows : List Row) : List ParamRec :=
  rows.foldl processInvRow []

/-- The body of the file loop of parse_inventory_files: files with an empty
    header are skipped, the rows of the others are processed in order. -/
def invFileStep (d : List ParamRec) (file : FileContent) : List ParamRec :=
  let hr := parse_tab_delimited_file file
  if hr.1.isEmpty then d else hr.2.foldl processInvRow d

/-- StateDataParser.parse_inventory_files over the matched files. -/
def parse_inventory_files (files : List FileContent) : List ParamRec :=
  files.foldl invFileStep []

/-- Line 161 of parse_state_data.py:

      station_id = row[header_map.get('Station', 1)].strip()
                     if 'Station' in header_map else row[1].strip()

    Unlike every other field access this one has no len(row) guard on the
    header-resolved index, so row[...] raises IndexError when the resolved
    index is out of range; the raised exception is modelled by none. -/
def resolveStationId (hm : HeaderMap) (row : Row) : Option PyStr :=
  match hm (str "Station") with
  | some i => if i < row.length then some (pyStrip (row.getD i [])) else none
  | none => if 1 < row.length then some (pyStrip (row.getD 1 [])) else none

/-- The station_data dict built at parse_state_data.py lines 166-178; the
    state field is unconditionally self.state_name (the configured region
    name), and description is row[-1].strip() guarded by len(row) > 0. -/
def mkStationData (state_name : PyStr) (hm : HeaderMap) (row : Row) (sid : PyStr) :
    StationRec :=
  { agency := resolveField hm row (str "Agency") 0
    station_id := sid
    station_name := resolveField hm row (str "Station Name") 2
    agency_name := resolveField hm row (str "Agency Name") 3
    state := state_name
    county := resolveField hm row (str "County Name") 5
    latitude := resolveField hm row (str "Latitude") 6
    longitude := resolveField hm row (str "Longitude") 7
    huc := resolveField hm row (str "HUC") 8
    station_type := resolveField hm row (str "Station Type") (-4)
    description := if 0 < row.length then pyStrip (row.getD (row.length - 1) []) else [] }

/-- The state field of the station_data dict in the Washington-specific parser
    (parse_washington_data.py line 124):

      row[header_map.get('State Name', 4)].strip()
        if 'State Name' in header_map and len(row) > header_map['State Name']
        else 'Washington' -/
def waStateField (hm : HeaderMap) (row : Row) : PyStr :=
  match hm (str "State Name") with
  | some i => if i < row.length then pyStrip (row.getD i []) else str "Washington"
  | none => str "Washington"

/-- The station_data dict built at parse_washington_data.py lines 119-131:
    identical to mkStationData except for the state field. -/
def mkStationDataWA (hm : HeaderMap) (row : Row) (sid : PyStr) : StationRec :=
  { agency := resolveField hm row (str "Agency") 0
    station_id := sid
    station_name := resolveField hm row (str "Station Name") 2
    agency_name := resolveField hm row (str "Agency Name") 3
    state := waStateField hm row
    county := resolveField hm row (str "County Name") 5
    latitude := resolveField hm row (str "Latitude") 6
    longitude := resolveField hm row (str "Longitude") 7
    huc := resolveField hm row (str "HUC") 8
    station_type := resolveField hm row (str "Station Type") (-4)
    description := if 0 < row.length then pyStrip (row.getD (row.length - 1) []) else [] }

/-- The body of the row loop of StateDataParser.parse_station_files
    (parse_state_data.py lines 157-180): rows with fewer than 2 fields are
    skipped; resolving the station id may raise (none); an empty or already
    present station id is skipped; otherwise the record is appended. -/
def processStaRow (state_name : PyStr) (hm : HeaderMap) (d : List StationRec)
    (row : Row) : Option (List StationRec) :=
  if row.length < 2 then some d
  else
    match resolveStationId hm row with
    | none => none
    | some sid =>
      if sid.isEmpty || d.any (fun s => s.station_id == sid) then some d
      else some (d ++ [mkStationData state_name hm row sid])

/-- The row loop of parse_station_files over the rows of one file. -/
def parse_station_rows (state_name : PyStr) (hm : HeaderMap) (d : List StationRec)
    (rows : List Row) : Option (List StationRec) :=
  rows.foldlM (processStaRow state_name hm) d

/-- The body of the file loop of parse_station_files: files with an empty
    header are skipped, the rows of the others are processed in order. -/
def staFileStep (state_name : PyStr) (d : List StationRec) (file : FileContent) :
    Option (List StationRec) :=
  let hr := parse_tab_delimited_file file
  if hr.1.isEmpty then some d
  else parse_station_rows state_name (buildHeaderMap hr.1) d hr.2

/-- StateDataParser.parse_station_files over the matched files (none when one
    of the row iterations raised). -/
def parse_station_files (state_name : PyStr) (files : List FileContent) :
    Option (List StationRec) :=
  files.foldlM (staFileStep state_name) []

/-- The result_data dict built at parse_state_data.py lines 212-221. -/
def mkResultData (hm : HeaderMap) (row : Row) : ResultRec :=
  { agency := resolveField hm row (str "Agency") 0
    station_id := resolveField hm row (str "Station") 1
    param_code := resolveField hm row (str "Param") 11
    start_date := resolveField hm row (str "Start Date") 12
    start_time := resolveField hm row (str "Start Time") 13
    result_value := resolveField hm row (str "Result Value") 8
    huc := resolveField hm row (str "HUC") 10
    sample_depth := resolveField hm row (str "Sample Depth") 16 }

/-- The row loop of StateDataParser.parse_result_files (lines 208-224) over
    the rows of one file: rows with fewer than 10 fields are skipped, every
    other row is appended to self.results. -/
def parse_result_rows (hm : HeaderMap) (acc : List ResultRec) (rows : List Row) :
    List ResultRec :=
  rows.foldl (fun a row => if row.length < 10 then a else a ++ [mkResultData hm row]) acc

/-- The body of the file loop of parse_result_files: files with an empty
    header are skipped, the rows of the others are appended in order. -/
def resultFileStep (acc : List ResultRec) (file : FileContent) : List ResultRec :=
  let hr := parse_tab_delimited_file file
  if hr.1.isEmpty then acc
  else parse_result_rows (buildHeaderMap hr.1) acc hr.2

/-- StateDataParser.parse_result_files over the matched files
    (parse_state_data.py lines 185-229). -/
def parse_result_files (files : List FileContent) : List ResultRec :=
  files.foldl resultFileStep []

theorem filterMap_if_eq_filter_map (l : List α) (q : α → Bool) (g : α → β) :
    l.filterMap (fun x => if q x then none else some (g x))
      = (l.filter (fun x => !q x)).map g := by
  induction l with
  | nil => rfl
  | cons a as ih =>
    by_cases h : q a = true
    · simp [List.filterMap_cons, List.filter_cons, h, ih]
    · simp only [Bool.not_eq_true] at h
      simp [List.filterMap_cons, List.filter_cons, h, ih]

/-- Claim C1, counterexample: with a header not containing the requested name,
    a row of length 2 and positional default 0, the source's field resolution
    returns the empty string, while the claim (two-tier resolution with a
    positional fallback) requires the stripped value at index 0. -/
theorem C1_counterexample :
    resolveField (buildHeaderMap [str "Foo"]) [str "a", str "b"] (str "Agency") 0
      ≠ specResolveField (buildHeaderMap [str "Foo"]) [str "a", str "b"] (str "Agency") 0 := by
  decide

/-- Claim C1 (amended): field resolution returns the stripped value at the
    header-resolved index when the named column exists in the file's header
    and the row is long enough to contain it; in every other case (name absent
    from the header, or row too short for the header-resolved index) it
    returns the empty string; the positional default argument never influences
    the result. -/
theorem C1_amended (hm : HeaderMap) (row : Row) (name : PyStr) (dflt : Int) :
    (∀ i, hm name = some i → i < row.length →
        resolveField hm row name dflt = pyStrip (row.getD i []))
    ∧ (∀ i, hm name = some i → row.length ≤ i → resolveField hm row name dflt = [])
    ∧ (hm name = none → resolveField hm row name dflt = [])
    ∧ (∀ d2 : Int, resolveField hm row name dflt = resolveField hm row name d2) := by
  refine ⟨fun i hi hlen => ?_, fun i hi hlen => ?_, fun hn => ?_, fun d2 => rfl⟩
  · simp only [resolveField]; rw [hi]; simp [hlen]
  · simp only [resolveField]; rw [hi]; simp [Nat.not_lt.mpr hlen]
  · simp only [resolveField]; rw [hn]

/-- Claim C1, witness: the amended theorem applied to a header containing
    the name Agency at index 0 and a two-field row. -/
theorem C1_witness :
    resolveField (buildHeaderMap [str "Agency"]) [str " x ", str "y"] (str "Agency") 0
      = str "x" := by
  have h := (C1_amended (buildHeaderMap [str "Agency"]) [str " x ", str "y"]
      (str "Agency") 0).1 0 (by decide) (by decide)
  rw [h]; decide

/-- Claim C2: the code contradicts the claim. With a header placing the
    Station column at index 5, station-id resolution on a row of length 2
    evaluates to none, the model of the IndexError that row[5] raises in
    parse_state_data.py line 161, instead of yielding a string. -/
theorem C2_station_id_raises :
    resolveStationId
        (buildHeaderMap [str "A", str "B", str "C", str "D", str "E", str "Station"])
        [str "x", str "y"] = none
    ∧ 2 ≤ ([str "x", str "y"] : Row).length := by
  constructor
  · decide
  · decide

/-- Claim C7, counterexample: a readable file with exactly one line yields an
    empty header, while the claim requires the first line split on tabs and
    stripped as the header. -/
theorem C7_counterexample :
    parse_tab_delimited_file (some [str "a\tb"])
      ≠ specRecordReaderClaim (some [str "a\tb"]) := by
  decide

/-- Claim C7 (amended): for every file the record reader behaves exactly as
    the claim states (unreadable files yield empty header and rows; the first
    line split on tabs and stripped is the header; the second line is
    discarded; the non-blank lines from the third onward, split on tabs with
    fields stripped, are the data rows), except that a readable file with
    fewer than two lines also yields an empty header and no rows. -/
theorem C7_reader_amended (content : FileContent) :
    parse_tab_delimited_file content = specRecordReaderAmended content := by
  cases content with
  | none => rfl
  | some lines =>
    simp only [parse_tab_delimited_file, specRecordReaderAmended]
    split
    · rfl
    · simp only [Prod.mk.injEq, true_and]
      exact filterMap_if_eq_filter_map _ _ _

theorem parse_tab_headers_nil (f : FileContent) :
    (parse_tab_delimited_file f).1 = [] → (parse_tab_delimited_file f).2 = [] := by
  cases f with
  | none => intro _; rfl
  | some lines =>
    simp only [parse_tab_delimited_file]
    split
    · intro _; rfl
    · intro h
      exact absurd (List.map_eq_nil_iff.mp h) (pySplit_ne_nil '\t' (lines.headD []))

theorem parse_result_rows_length (hm : HeaderMap) (acc : List ResultRec)
    (rows : List Row) :
    (parse_result_rows hm acc rows).length
      = acc.length + (rows.filter (fun r => 10 ≤ r.length)).length := by
  induction rows generalizing acc with
  | nil => simp [parse_result_rows]
  | cons r rs ih =>
    simp only [parse_result_rows, List.foldl_cons] at *
    by_cases h : r.length < 10
    · rw [if_pos h, ih, List.filter_cons]
      simp [Nat.not_le.mpr h]
    · rw [if_neg h, ih, List.filter_cons]
      simp [Nat.le_of_not_lt h]
      omega

theorem resultFileStep_length (acc : List ResultRec) (f : FileContent) :
    (resultFileStep acc f).length
      = acc.length
        + ((parse_tab_delimited_file f).2.filter (fun r => 10 ≤ r.length)).length := by
  unfold resultFileStep
  by_cases h : (parse_tab_delimited_file f).1.isEmpty
  · have h2 : (parse_tab_delimited_file f).2 = [] :=
      parse_tab_headers_nil f (List.isEmpty_iff.mp h)
    simp [h, h2]
  · simp [h, parse_result_rows_length]

theorem foldl_resultFileStep_length (files : List FileContent) (acc : List ResultRec) :
    (files.foldl resultFileStep acc).length
      = acc.length
        + (files.map (fun f =>
            ((parse_tab_delimited_file f).2.filter (fun r => 10 ≤ r.length)).length)).sum := by
  induction files generalizing acc with
  | nil => simp
  | cons f fs ih =>
    simp only [List.foldl_cons, ih, resultFileStep_length, List.map_cons, List.sum_cons]
    omega

/-- Claim C3: over any list of matched result files, the number of extracted
    result records equals the number of data rows, across those files, having
    at least 10 fields; shorter rows contribute nothing and each row with at
    least 10 fields contributes exactly one record. -/
theorem C3_result_count (files : List FileContent) :
    (parse_result_files files).length
      = (files.map (fun f =>
          ((parse_tab_delimited_file f).2.filter (fun r => 10 ≤ r.length)).length)).sum := by
  simpa using foldl_resultFileStep_length files []

/-- The code of an inventory row: row[0].strip(). -/
def rowCode (row : Row) : PyStr := pyStrip (row.getD 0 [])

/-- Whether an inventory code passes the skip check of parse_state_data.py
    line 121 (true: the code is non-empty and not header-like). -/
def keepCode (c : PyStr) : Bool :=
  !(c.isEmpty || c == str "Code" || (str "---").isPrefixOf c)

/-- The parameter record an inventory row with at least 3 fields produces. -/
def mkParam (row : Row) : ParamRec :=
  { code := rowCode row
    short_name := pyStrip (row.getD 1 [])
    long_name := pyStrip (row.getD 2 []) }

theorem find?_cons_true (p : α → Bool) (a : α) (l : List α) (h : p a = true) :
    (a :: l).find? p = some a := by
  simp [List.find?, h]

theorem find?_cons_false (p : α → Bool) (a : α) (l : List α) (h : p a = false) :
    (a :: l).find? p = l.find? p := by
  simp [List.find?, h]

theorem processInvRow_short (d : List ParamRec) (row : Row) (h : row.length < 3) :
    processInvRow d row = d := by
  simp [processInvRow, Nat.not_le.mpr h]

theorem processInvRow_of_keep (d : List ParamRec) (row : Row) (h3 : 3 ≤ row.length)
    (hk : keepCode (rowCode row) = true) :
    processInvRow d row
      = if d.any (fun p => p.code == rowCode row) then d else d ++ [mkParam row] := by
  have h1 : 1 < row.length := by omega
  have h2 : 2 < row.length := by omega
  have hsk : ((pyStrip (row.getD 0 [])).isEmpty
      || (pyStrip (row.getD 0 []) == str "Code")
      || ((str "---").isPrefixOf (pyStrip (row.getD 0 [])))) = false := by
    have h := hk
    simp only [keepCode, rowCode, Bool.not_eq_true'] at h
    exact h
  simp only [processInvRow, rowCode, mkParam]
  rw [if_pos h3, if_neg (by rw [hsk]; exact Bool.false_ne_true), if_pos h1, if_pos h2]

theorem processInvRow_of_skip (d : List ParamRec) (row : Row)
    (hk : keepCode (rowCode row) = false) :
    processInvRow d row = d := by
  by_cases h3 : 3 ≤ row.length
  · have hsk : ((pyStrip (row.getD 0 [])).isEmpty
        || (pyStrip (row.getD 0 []) == str "Code")
        || ((str "---").isPrefixOf (pyStrip (row.getD 0 [])))) = true := by
      have h := hk
      simp only [keepCode, rowCode, Bool.not_eq_false'] at h
      exact h
    simp only [processInvRow]
    rw [if_pos h3, if_pos hsk]
  · exact processInvRow_short d row (Nat.not_le.mp h3)

theorem processInvRow_cases (d : List ParamRec) (row : Row) (h3 : 3 ≤ row.length) :
    processInvRow d row = d ∨ processInvRow d row = d ++ [mkParam row] := by
  by_cases hk : keepCode (rowCode row) = true
  · rw [processInvRow_of_keep d row h3 hk]
    by_cases hany : d.any (fun p => p.code == rowCode row) = true
    · exact Or.inl (if_pos hany)
    · exact Or.inr (if_neg hany)
  · exact Or.inl (processInvRow_of_skip d row (Bool.not_eq_true _ ▸ hk))

theorem mkParam_code (row : Row) : (mkParam row).code = rowCode row := rfl

theorem inv_fold_filter (rows : List Row) (d : List ParamRec) (c : PyStr)
    (h3 : ∀ r ∈ rows, 3 ≤ r.length) (hk : keepCode c = true) :
    (rows.foldl processInvRow d).filter (fun p => p.code == c)
      = d.filter (fun p => p.code == c)
        ++ (if d.any (fun p => p.code == c) then []
            else ((rows.find? (fun r => rowCode r == c)).toList.map mkParam)) := by
  induction rows generalizing d with
  | nil => simp
  | cons r rs ih =>
    have h3r : 3 ≤ r.length := h3 r (List.mem_cons_self r rs)
    have h3s : ∀ x ∈ rs, 3 ≤ x.length := fun x hx => h3 x (List.mem_cons_of_mem r hx)
    simp only [List.foldl_cons]
    by_cases hc : (rowCode r == c) = true
    · have hceq : rowCode r = c := by simpa using hc
      by_cases hany : d.any (fun p => p.code == c) = true
      · have hstep : processInvRow d r = d := by
          rw [processInvRow_of_keep d r h3r (by rw [hceq]; exact hk)]
          rw [if_pos (by rw [hceq]; exact hany)]
        rw [hstep, ih d h3s]
        simp [hany]
      · have hstep : processInvRow d r = d ++ [mkParam r] := by
          rw [processInvRow_of_keep d r h3r (by rw [hceq]; exact hk)]
          rw [if_neg (by rw [hceq]; exact hany)]
        rw [hstep, ih _ h3s]
        have hone : ([mkParam r] : List ParamRec).any (fun p => p.code == c) = true := by
          rw [List.any_cons, List.any_nil, mkParam_code, hc, Bool.true_or]
        have hanyT : (d ++ [mkParam r]).any (fun p => p.code == c) = true := by
          rw [List.any_append, hone, Bool.or_true]
        have hfil : (d ++ [mkParam r]).filter (fun p => p.code == c)
            = d.filter (fun p => p.code == c) ++ [mkParam r] := by
          rw [List.filter_append, List.filter_cons]
          rw [mkParam_code, hc]
          simp
        rw [if_pos hanyT, hfil, if_neg hany,
          find?_cons_true (fun r => rowCode r == c) r rs hc]
        simp
    · have hcne : (rowCode r == c) = false := Bool.not_eq_true _ ▸ hc
      rw [find?_cons_false (fun r => rowCode r == c) r rs hcne]
      rcases processInvRow_cases d r h3r with hstep | hstep <;> rw [hstep, ih _ h3s]
      have hfil : (d ++ [mkParam r]).filter (fun p => p.code == c)
          = d.filter (fun p => p.code == c) := by
        rw [List.filter_append, List.filter_cons]
        rw [mkParam_code, hcne]
        simp
      have hany2 : (d ++ [mkParam r]).any (fun p => p.code == c)
          = d.any (fun p => p.code == c) := by
        rw [List.any_append, List.any_cons, List.any_nil, mkParam_code, hcne]
        simp
      rw [hfil, hany2]
/-- Claim C4: processing any sequence of inventory rows (each with at least the
    3 fields the layout [code, short_name, long_name, ...] prescribes) in
    order, the parameter collection has exactly one entry for each non-empty,
    non-header-like code occurring in the rows, and that entry is built from
    the first row carrying the code; rows with codes not occurring contribute
    no entry, and later rows with the same code never update or delete it. -/
theorem C4_first_writer_wins (rows : List Row) (h3 : ∀ r ∈ rows, 3 ≤ r.length)
    (c : PyStr) (hk : keepCode c = true) :
    (parse_inventory_rows rows).filter (fun p => p.code == c)
      = (rows.find? (fun r => rowCode r == c)).toList.map mkParam := by
  have h := inv_fold_filter rows [] c h3 hk
  simpa [parse_inventory_rows] using h

/-- Claim C4, witness: the rows ("00010","Temp","Water Temperature") and
    ("00010","T","Temperature (dup)") yield exactly one parameter with code
    00010, short name Temp and long name Water Temperature. -/
theorem C4_witness :
    (parse_inventory_rows
        [[str "00010", str "Temp", str "Water Temperature"],
         [str "00010", str "T", str "Temperature (dup)"]]).filter
        (fun p => p.code == str "00010")
      = [{ code := str "00010", short_name := str "Temp",
           long_name := str "Water Temperature" }] := by
  have h := C4_first_writer_wins
      [[str "00010", str "Temp", str "Water Temperature"],
       [str "00010", str "T", str "Temperature (dup)"]]
      (by decide) (str "00010") (by decide)
  rw [h]; decide

theorem any_beq_false_not_mem {α β : Type} [BEq α] [LawfulBEq α] (l : List β)
    (f : β → α) (a : α) (h : l.any (fun x => f x == a) = false) :
    a ∉ l.map f := by
  intro hmem
  obtain ⟨x, hx, hfx⟩ := List.mem_map.mp hmem
  have ht : l.any (fun x => f x == a) = true :=
    List.any_eq_true.mpr ⟨x, hx, by simp [hfx]⟩
  rw [h] at ht
  exact Bool.false_ne_true ht

theorem processInvRow_eq_or (d : List ParamRec) (row : Row) :
    processInvRow d row = d
    ∨ (d.any (fun p => p.code == rowCode row) = false
       ∧ processInvRow d row = d ++ [mkParam row]) := by
  by_cases h3 : 3 ≤ row.length
  · by_cases hk : keepCode (rowCode row) = true
    · rw [processInvRow_of_keep d row h3 hk]
      by_cases hany : d.any (fun p => p.code == rowCode row) = true
      · exact Or.inl (if_pos hany)
      · exact Or.inr ⟨Bool.not_eq_true _ ▸ hany, if_neg hany⟩
    · exact Or.inl (processInvRow_of_skip d row (Bool.not_eq_true _ ▸ hk))
  · exact Or.inl (processInvRow_short d row (Nat.not_le.mp h3))

theorem processInvRow_nodup (d : List ParamRec) (row : Row)
    (h : (d.map (fun p => p.code)).Nodup) :
    ((processInvRow d row).map (fun p => p.code)).Nodup := by
  rcases processInvRow_eq_or d row with he | ⟨hany, he⟩
  · rw [he]; exact h
  · rw [he]
    simp only [List.map_append, List.map_cons, List.map_nil, mkParam_code]
    refine List.Nodup.append h (List.nodup_singleton _) ?_
    intro a ha hb
    rw [List.mem_singleton] at hb
    subst hb
    exact any_beq_false_not_mem d (fun p => p.code) (rowCode row) hany ha

theorem foldl_processInvRow_nodup (rows : List Row) (d : List ParamRec)
    (h : (d.map (fun p => p.code)).Nodup) :
    (((rows.foldl processInvRow d)).map (fun p => p.code)).Nodup := by
  induction rows generalizing d with
  | nil => exact h
  | cons r rs ih => exact ih (processInvRow d r) (processInvRow_nodup d r h)

theorem invFileStep_nodup (d : List ParamRec) (f : FileContent)
    (h : (d.map (fun p => p.code)).Nodup) :
    ((invFileStep d f).map (fun p => p.code)).Nodup := by
  simp only [invFileStep]
  split
  · exact h
  · exact foldl_processInvRow_nodup _ d h

theorem mkStationData_sid (n : PyStr) (hm : HeaderMap) (row : Row) (sid : PyStr) :
    (mkStationData n hm row sid).station_id = sid := rfl

theorem foldlM_option_preserve {α σ : Type} (P : σ → Prop) (f : σ → α → Option σ)
    (hf : ∀ s a s2, P s → f s a = some s2 → P s2) :
    ∀ (l : List α) (s s2 : σ), P s → l.foldlM f s = some s2 → P s2 := by
  intro l
  induction l with
  | nil =>
    intro s s2 hs h
    rw [List.foldlM_nil] at h
    exact (Option.some.inj h) ▸ hs
  | cons a as ih =>
    intro s s2 hs h
    rw [List.foldlM_cons] at h
    cases hstep : f s a with
    | none => rw [hstep] at h; exact absurd h (by simp)
    | some s1 =>
      rw [hstep] at h
      have h2 : as.foldlM f s1 = some s2 := h
      exact ih s1 s2 (hf s a s1 hs hstep) h2

theorem processStaRow_some_cases (n : PyStr) (hm : HeaderMap) (d : List StationRec)
    (row : Row) (d2 : List StationRec) (h : processStaRow n hm d row = some d2) :
    d2 = d
    ∨ ∃ sid, d.any (fun s => s.station_id == sid) = false
        ∧ d2 = d ++ [mkStationData n hm row sid] := by
  simp only [processStaRow] at h
  split at h
  · exact Or.inl (Option.some.inj h).symm
  · split at h
    · cases h
    · rename_i sid heq
      split at h
      · exact Or.inl (Option.some.inj h).symm
      · rename_i hskip
        have hor : (sid.isEmpty || d.any (fun s => s.station_id == sid)) = false := by
          simpa using hskip
        exact Or.inr ⟨sid, (Bool.or_eq_false_iff.mp hor).2, (Option.some.inj h).symm⟩

theorem processStaRow_nodup (n : PyStr) (hm : HeaderMap) (d : List StationRec)
    (row : Row) (d2 : List StationRec)
    (hnd : (d.map (fun s => s.station_id)).Nodup)
    (h : processStaRow n hm d row = some d2) :
    (d2.map (fun s => s.station_id)).Nodup := by
  rcases processStaRow_some_cases n hm d row d2 h with he | ⟨sid, hany, he⟩
  · rw [he]; exact hnd
  · rw [he]
    simp only [List.map_append, List.map_cons, List.map_nil, mkStationData_sid]
    refine List.Nodup.append hnd (List.nodup_singleton _) ?_
    intro a ha hb
    rw [List.mem_singleton] at hb
    exact any_beq_false_not_mem d (fun s => s.station_id) sid hany (hb ▸ ha)

theorem parse_station_rows_nodup (n : PyStr) (hm : HeaderMap) (d : List StationRec)
    (rows : List Row) (d2 : List StationRec)
    (hnd : (d.map (fun s => s.station_id)).Nodup)
    (h : parse_station_rows n hm d rows = some d2) :
    (d2.map (fun s => s.station_id)).Nodup :=
  foldlM_option_preserve (fun s => (s.map (fun x => x.station_id)).Nodup)
    (processStaRow n hm) (fun s a s2 hs hstep => processStaRow_nodup n hm s a s2 hs hstep)
    rows d d2 hnd h

theorem staFileStep_nodup (n : PyStr) (d : List StationRec) (f : FileContent)
    (d2 : List StationRec) (hnd : (d.map (fun s => s.station_id)).Nodup)
    (h : staFileStep n d f = some d2) :
    (d2.map (fun s => s.station_id)).Nodup := by
  simp only [staFileStep] at h
  by_cases hh : (parse_tab_delimited_file f).1.isEmpty
  · rw [if_pos hh] at h
    exact (Option.some.inj h) ▸ hnd
  · rw [if_neg hh] at h
    exact parse_station_rows_nodup n _ d _ d2 hnd h

/-- Claim C5: during and after a parsing run the parameter collection never
    holds two entries with the same code and the station collection never
    holds two entries with the same station id: processing any sequence of
    inventory rows from any deduplicated state preserves code uniqueness,
    processing any sequence of station rows that completes without raising
    preserves station-id uniqueness, and the collections produced by the full
    file-level extractions are duplicate-free. -/
theorem C5_unique_keys :
    (∀ (d : List ParamRec) (rows : List Row),
        (d.map (fun p => p.code)).Nodup →
        ((rows.foldl processInvRow d).map (fun p => p.code)).Nodup)
    ∧ (∀ (n : PyStr) (hm : HeaderMap) (d d2 : List StationRec) (rows : List Row),
        (d.map (fun s => s.station_id)).Nodup →
        parse_station_rows n hm d rows = some d2 →
        (d2.map (fun s => s.station_id)).Nodup)
    ∧ (∀ files : List FileContent,
        ((parse_inventory_files files).map (fun p => p.code)).Nodup)
    ∧ (∀ (n : PyStr) (files : List FileContent) (sts : List StationRec),
        parse_station_files n files = some sts →
        (sts.map (fun s => s.station_id)).Nodup) := by
  refine ⟨fun d rows h => foldl_processInvRow_nodup rows d h,
    fun n hm d d2 rows h1 h2 => parse_station_rows_nodup n hm d rows d2 h1 h2,
    fun files => ?_, fun n files sts h => ?_⟩
  · have : ∀ (fs : List FileContent) (d : List ParamRec),
        (d.map (fun p => p.code)).Nodup →
        ((fs.foldl invFileStep d).map (fun p => p.code)).Nodup := by
      intro fs
      induction fs with
      | nil => exact fun d h => h
      | cons f fs2 ih => exact fun d h => ih (invFileStep d f) (invFileStep_nodup d f h)
    exact this files [] (by simp)
  · exact foldlM_option_preserve (fun s => (s.map (fun x => x.station_id)).Nodup)
      (staFileStep n) (fun s a s2 hs hstep => staFileStep_nodup n s a s2 hs hstep)
      files [] sts (by simp) h

/-- Claim C5, witness: the invariant theorem applied to a concrete inventory
    row sequence with a duplicated code and to a concrete station row. -/
theorem C5_witness :
    ((([[str "00010", str "Temp", str "WT"],
        [str "00010", str "T", str "dup"],
        [str "00020", str "pH", str "pH level"]].foldl processInvRow []).map
        (fun p => p.code)).Nodup)
    ∧ (([mkStationData (str "Washington")
          (buildHeaderMap [str "Agency", str "Station"]) [str "ag", str " S1 "]
          (str "S1")].map (fun s => s.station_id)).Nodup) := by
  constructor
  · exact C5_unique_keys.1 []
      [[str "00010", str "Temp", str "WT"],
       [str "00010", str "T", str "dup"],
       [str "00020", str "pH", str "pH level"]] (by simp)
  · exact C5_unique_keys.2.1 (str "Washington")
      (buildHeaderMap [str "Agency", str "Station"]) []
      [mkStationData (str "Washington") (buildHeaderMap [str "Agency", str "Station"])
        [str "ag", str " S1 "] (str "S1")]
      [[str "ag", str " S1 "]] (by simp) (by decide)

/-- Claim C6, counterexample: a station row whose header contains the State
    Name column, with value Oregon, still yields a record whose state field is
    the configured region name Washington, contradicting the claim that the
    state field equals the row's state column when that column is present. -/
theorem C6_counterexample :
    (mkStationData (str "Washington")
        (buildHeaderMap [str "Agency", str "Station", str "Station Name",
          str "Agency Name", str "State Name"])
        [str "USGS", str "ST1", str "NameX", str "AgX", str "Oregon"]
        (str "ST1")).state = str "Washington"
    ∧ resolveField
        (buildHeaderMap [str "Agency", str "Station", str "Station Name",
          str "Agency Name", str "State Name"])
        [str "USGS", str "ST1", str "NameX", str "AgX", str "Oregon"]
        (str "State Name") 4 = str "Oregon"
    ∧ (str "Washington" : PyStr) ≠ str "Oregon" := by
  exact ⟨rfl, by decide, by decide⟩

/-- Claim C6 (amended): in the generalized state parser the station record's
    state field always equals the configured region name, regardless of the
    source row; the claimed behaviour holds only in the Washington-specific
    parser, whose state field equals the row's State Name value when that
    header is present and the row long enough, and is the literal Washington
    otherwise. -/
theorem C6_amended (state_name : PyStr) (hm : HeaderMap) (row : Row) (sid : PyStr) :
    ((mkStationData state_name hm row sid).state = state_name)
    ∧ (∀ i, hm (str "State Name") = some i → i < row.length →
        (mkStationDataWA hm row sid).state = pyStrip (row.getD i []))
    ∧ ((∀ i, hm (str "State Name") = some i → row.length ≤ i) →
        (mkStationDataWA hm row sid).state = str "Washington") := by
  refine ⟨rfl, fun i hi hlen => ?_, fun hb => ?_⟩
  · show waStateField hm row = _
    simp only [waStateField]
    rw [hi]
    simp [hlen]
  · show waStateField hm row = _
    simp only [waStateField]
    cases hsn : hm (str "State Name") with
    | none => rfl
    | some i =>
      have hgoal : (if i < row.length then pyStrip (row.getD i [])
          else str "Washington") = str "Washington" :=
        if_neg (Nat.not_lt.mpr (hb i hsn))
      exact hgoal

/-- Claim C6, witness: the amended theorem applied to a header holding State
    Name at index 0, a one-field row carrying Oregon, and the configured name
    Idaho. -/
theorem C6_witness :
    ((mkStationDataWA (buildHeaderMap [str "State Name"]) [str " Oregon "]
        (str "S")).state = str "Oregon")
    ∧ ((mkStationData (str "Idaho") (buildHeaderMap [str "State Name"])
        [str " Oregon "] (str "S")).state = str "Idaho") := by
  constructor
  · have h := (C6_amended (str "Idaho") (buildHeaderMap [str "State Name"])
        [str " Oregon "] (str "S")).2.1 0 (by decide) (by decide)
    rw [h]; decide
  · exact (C6_amended (str "Idaho") (buildHeaderMap [str "State Name"])
      [str " Oregon "] (str "S")).1

theorem foldl_processInvRow_filter (rows : List Row) (d : List ParamRec) :
    rows.foldl processInvRow d
      = (rows.filter (fun r => 3 ≤ r.length)).foldl processInvRow d := by
  induction rows generalizing d with
  | nil => rfl
  | cons r rs ih =>
    rw [List.foldl_cons, List.filter_cons]
    by_cases h : 3 ≤ r.length
    · rw [if_pos (by simpa using h), List.foldl_cons]
      exact ih (processInvRow d r)
    · rw [if_neg (by simpa using h), processInvRow_short d r (Nat.not_le.mp h)]
      exact ih d

/-- Claim C10: a parameter record is created only from inventory rows having
    at least 3 fields: any shorter row leaves the collection unchanged, and
    the whole extraction is unchanged when rows with fewer than 3 fields are
    removed from the input. -/
theorem C10_min_fields :
    (∀ (d : List ParamRec) (row : Row), row.length < 3 → processInvRow d row = d)
    ∧ (∀ rows : List Row,
        parse_inventory_rows rows
          = parse_inventory_rows (rows.filter (fun r => 3 ≤ r.length))) :=
  ⟨fun d row h => processInvRow_short d row h,
   fun rows => foldl_processInvRow_filter rows []⟩

/-- Claim C10, witness: a two-field row with the valid code 00095 contributes
    no parameter record. -/
theorem C10_witness : processInvRow [] [str "00095", str "Cond"] = [] :=
  C10_min_fields.1 [] [str "00095", str "Cond"] (by decide)


/-- Python str.lower() (ASCII, as used for state names). -/
def pyLower (s : PyStr) : PyStr := s.map Char.toLower

/-- One field of a csv.writer output with the default dialect: quoted, with
    doubled quote characters, when the field contains a delimiter, quote or
    line break. -/
def csvField (s : PyStr) : PyStr :=
  if s.any (fun c => c = ',' || c = '"' || c = '\n' || c = '\r') then
    '"' :: (s.flatMap (fun c => if c = '"' then ['"', '"'] else [c])) ++ ['"']
  else s

/-- One row written by csv.writer with the default dialect (terminator CRLF). -/
def csvLine (fields : List PyStr) : PyStr :=
  List.intercalate (str ",") (fields.map csvField) ++ str "\r\n"

/-- A whole csv file written by csv.DictWriter: the header row followed by one
    row per record. -/
def csvFileText (fieldnames : List PyStr) (rows : List (List PyStr)) : PyStr :=
  csvLine fieldnames ++ (rows.map csvLine).flatten

/-- The fieldnames order of parameters.csv (parse_state_data.py line 241). -/
def paramFields (p : ParamRec) : List PyStr := [p.code, p.short_name, p.long_name]

/-- The fieldnames order of stations.csv (parse_state_data.py lines 249-251). -/
def stationFields (s : StationRec) : List PyStr :=
  [s.agency, s.station_id, s.station_name, s.agency_name, s.state, s.county,
   s.latitude, s.longitude, s.huc, s.station_type, s.description]

/-- The fieldnames order of results.csv (parse_state_data.py lines 260-261). -/
def resultFields (r : ResultRec) : List PyStr :=
  [r.agency, r.station_id, r.param_code, r.start_date, r.start_time,
   r.result_value, r.huc, r.sample_depth]

/-- The output directory, as a map from file name to file contents
    (paths are taken relative to the output directory). -/
abbrev FS := String → Option PyStr

/-- Writing one file into the output directory. -/
def fsInsert (fs : FS) (k : String) (v : PyStr) : FS :=
  fun k2 => if k2 = k then some v else fs k2

theorem fsInsert_same (fs : FS) (k : String) (v : PyStr) :
    fsInsert fs k v k = some v := by
  simp [fsInsert]

theorem fsInsert_other (fs : FS) (k : String) (v : PyStr) (k2 : String)
    (h : k2 ≠ k) : fsInsert fs k v k2 = fs k2 := by
  simp [fsInsert, h]

/-- StateDataParser.write_csv_files (parse_state_data.py lines 231-265):
    serializes the three collections, in the fixed field order, to the three
    delimited files. -/
def write_csv_files (fs : FS) (params : List ParamRec)
    (stations : List StationRec) (results : List ResultRec) : FS :=
  fsInsert
    (fsInsert
      (fsInsert fs "parameters.csv"
        (csvFileText [str "code", str "short_name", str "long_name"]
          (params.map paramFields)))
      "stations.csv"
      (csvFileText [str "agency", str "station_id", str "station_name",
          str "agency_name", str "state", str "county", str "latitude",
          str "longitude", str "huc", str "station_type", str "description"]
        (stations.map stationFields)))
    "results.csv"
    (csvFileText [str "agency", str "station_id", str "param_code",
        str "start_date", str "start_time", str "result_value", str "huc",
        str "sample_depth"]
      (results.map resultFields))

def schemaText (state_name : PyStr) : PyStr :=
  str "-- SQLite Schema for "
  ++ state_name
  ++ str " Water Quality Data\n"
  ++ str "-- Generated by parse_state_data.py\n"
  ++ str "\n"
  ++ str "-- Drop existing tables if they exist\n"
  ++ str "DROP TABLE IF EXISTS results;\n"
  ++ str "DROP TABLE IF EXISTS stations;\n"
  ++ str "DROP TABLE IF EXISTS parameters;\n"
  ++ str "\n"
  ++ str "-- Parameters table\n"
  ++ str "CREATE TABLE parameters (\n"
  ++ str "    code TEXT PRIMARY KEY,\n"
  ++ str "    short_name TEXT,\n"
  ++ str "    long_name TEXT\n"
  ++ str ");\n"
  ++ str "\n"
  ++ str "-- Stations table\n"
  ++ str "CREATE TABLE stations (\n"
  ++ str "    agency TEXT,\n"
  ++ str "    station_id TEXT PRIMARY KEY,\n"
  ++ str "    station_name TEXT,\n"
  ++ str "    agency_name TEXT,\n"
  ++ str "    state TEXT,\n"
  ++ str "    county TEXT,\n"
  ++ str "    latitude REAL,\n"
  ++ str "    longitude REAL,\n"
  ++ str "    huc TEXT,\n"
  ++ str "    station_type TEXT,\n"
  ++ str "    description TEXT\n"
  ++ str ");\n"
  ++ str "\n"
  ++ str "-- Results table\n"
  ++ str "CREATE TABLE results (\n"
  ++ str "    id INTEGER PRIMARY KEY AUTOINCREMENT,\n"
  ++ str "    agency TEXT,\n"
  ++ str "    station_id TEXT,\n"
  ++ str "    param_code TEXT,\n"
  ++ str "    start_date TEXT,\n"
  ++ str "    start_time TEXT,\n"
  ++ str "    result_value TEXT,\n"
  ++ str "    huc TEXT,\n"
  ++ str "    sample_depth TEXT,\n"
  ++ str "    FOREIGN KEY (station_id) REFERENCES stations(station_id),\n"
  ++ str "    FOREIGN KEY (param_code) REFERENCES parameters(code)\n"
  ++ str ");\n"
  ++ str "\n"
  ++ str "-- Create indexes for better query performance\n"
  ++ str "CREATE INDEX idx_results_station ON results(station_id);\n"
  ++ str "CREATE INDEX idx_results_param ON results(param_code);\n"
  ++ str "CREATE INDEX idx_results_date ON results(start_date);\n"
  ++ str "CREATE INDEX idx_stations_county ON stations(county);\n"



def importScriptText (state_name : PyStr) : PyStr :=
  str "#!/bin/bash\n"
  ++ str "# Import "
  ++ state_name
  ++ str " water quality data into SQLite\n"
  ++ str "# Generated by parse_state_data.py\n"
  ++ str "\n"
  ++ str "set -e  # Exit on error\n"
  ++ str "\n"
  ++ str "DB_FILE=\"../"
  ++ (pyLower state_name ++ str "_water.db")
  ++ str "\"\n"
  ++ str "\n"
  ++ (str "echo \"" ++ List.replicate 64 '=' ++ str "\"\n")
  ++ str "echo \"Importing "
  ++ state_name
  ++ str " Water Quality Data to SQLite\"\n"
  ++ (str "echo \"" ++ List.replicate 64 '=' ++ str "\"\n")
  ++ str "\n"
  ++ str "# Check if CSV files exist\n"
  ++ str "if [ ! -f \"parameters.csv\" ] || [ ! -f \"stations.csv\" ] || [ ! -f \"results.csv\" ]; then\n"
  ++ str "    echo \"ERROR: CSV files not found. Run parse_state_data.py first.\"\n"
  ++ str "    exit 1\n"
  ++ str "fi\n"
  ++ str "\n"
  ++ str "        # Check if database already exists\n"
  ++ str "        if [ -f \"$DB_FILE\" ]; then\n"
  ++ str "            echo \"Database $DB_FILE already exists. Skipping import.\"\n"
  ++ str "            exit 0\n"
  ++ str "        fi\n"
  ++ str "\n"
  ++ str "        # Create schemaecho \"\"\n"
  ++ str "echo \"[1/4] Creating database schema...\"\n"
  ++ str "sqlite3 \"$DB_FILE\" < schema.sql\n"
  ++ str "echo \"  ✓ Schema created\"\n"
  ++ str "\n"
  ++ str "# Import parameters\n"
  ++ str "echo \"\"\n"
  ++ str "echo \"[2/4] Importing parameters...\"\n"
  ++ str "sqlite3 \"$DB_FILE\" <<\x27EOF\x27\n"
  ++ str ".mode csv\n"
  ++ str ".import --skip 1 parameters.csv parameters\n"
  ++ str "EOF\n"
  ++ str "COUNT=$(sqlite3 \"$DB_FILE\" \"SELECT COUNT(*) FROM parameters;\")\n"
  ++ str "echo \"  ✓ Imported $COUNT parameters\"\n"
  ++ str "\n"
  ++ str "# Import stations\n"
  ++ str "echo \"\"\n"
  ++ str "echo \"[3/4] Importing stations...\"\n"
  ++ str "sqlite3 \"$DB_FILE\" <<\x27EOF\x27\n"
  ++ str ".mode csv\n"
  ++ str ".import --skip 1 stations.csv stations\n"
  ++ str "EOF\n"
  ++ str "COUNT=$(sqlite3 \"$DB_FILE\" \"SELECT COUNT(*) FROM stations;\")\n"
  ++ str "echo \"  ✓ Imported $COUNT stations\"\n"
  ++ str "\n"
  ++ str "# Import results (this may take a while)\n"
  ++ str "echo \"\"\n"
  ++ str "echo \"[4/4] Importing results (this may take several minutes)...\"\n"
  ++ str "sqlite3 \"$DB_FILE\" <<\x27EOF\x27\n"
  ++ str ".mode csv\n"
  ++ str "CREATE TEMPORARY TABLE temp_results (\n"
  ++ str "    agency TEXT,\n"
  ++ str "    station_id TEXT,\n"
  ++ str "    param_code TEXT,\n"
  ++ str "    start_date TEXT,\n"
  ++ str "    start_time TEXT,\n"
  ++ str "    result_value TEXT,\n"
  ++ str "    huc TEXT,\n"
  ++ str "    sample_depth TEXT\n"
  ++ str ");\n"
  ++ str ".import --skip 1 results.csv temp_results\n"
  ++ str "INSERT INTO results (agency, station_id, param_code, start_date, start_time, result_value, huc, sample_depth)\n"
  ++ str "SELECT agency, station_id, param_code, start_date, start_time, result_value, huc, sample_depth FROM temp_results;\n"
  ++ str "DROP TABLE temp_results;\n"
  ++ str "EOF\n"
  ++ str "COUNT=$(sqlite3 \"$DB_FILE\" \"SELECT COUNT(*) FROM results;\")\n"
  ++ str "echo \"  ✓ Imported $COUNT results\"\n"
  ++ str "\n"
  ++ str "# Verify indexes\n"
  ++ str "echo \"\"\n"
  ++ str "echo \"Verifying indexes...\"\n"
  ++ str "sqlite3 \"$DB_FILE\" \".indexes\" | grep -c \"idx_\" || echo \"0\"\n"
  ++ str "echo \"  ✓ Indexes created\"\n"
  ++ str "\n"
  ++ str "# Show database size\n"
  ++ str "DB_SIZE=$(du -h \"$DB_FILE\" | cut -f1)\n"
  ++ str "echo \"\"\n"
  ++ (str "echo \"" ++ List.replicate 64 '=' ++ str "\"\n")
  ++ str "echo \"✓ Import complete!\"\n"
  ++ (str "echo \"" ++ List.replicate 64 '=' ++ str "\"\n")
  ++ str "echo \"Database: $DB_FILE\"\n"
  ++ str "echo \"Size: $DB_SIZE\"\n"
  ++ str "echo \"\"\n"
  ++ str "echo \"To test:\"\n"
  ++ str "echo \"  sqlite3 $DB_FILE\"\n"
  ++ str "echo \"  sqlite> SELECT COUNT(*) FROM results;\"\n"
  ++ str "echo \"  sqlite> SELECT COUNT(*) FROM stations;\"\n"
  ++ str "echo \"  sqlite> .quit\"\n"
  ++ str "echo \"\"\n"

/-- StateDataParser.write_sqlite_schema (lines 267-329). -/
def write_sqlite_schema (fs : FS) (state_name : PyStr) : FS :=
  fsInsert fs "schema.sql" (schemaText state_name)

/-- StateDataParser.write_import_script (lines 331-442) with the default
    db_name (None, hence state_name.lower() + _water.db). -/
def write_import_script (fs : FS) (state_name : PyStr) : FS :=
  fsInsert fs "import_to_sqlite.sh" (importScriptText state_name)

/-- StateDataParser.run (parse_state_data.py lines 444-468): when the three
    delimited output files already exist, skip parsing and only rewrite the
    schema and import-script artifacts; otherwise parse (a raised IndexError,
    modelled none, aborts before anything is written), write the three csv
    files, the schema and the import script. The Bool records whether the
    extraction phase ran. -/
def runModel (inv sta res : List FileContent) (state_name : PyStr) (fs : FS) :
    Option (FS × Bool) :=
  if (fs "parameters.csv").isSome && (fs "stations.csv").isSome
      && (fs "results.csv").isSome then
    some (write_import_script (write_sqlite_schema fs state_name) state_name, false)
  else
    match parse_station_files state_name sta with
    | none => none
    | some stations =>
      some (write_import_script
        (write_sqlite_schema
          (write_csv_files fs (parse_inventory_files inv) stations
            (parse_result_files res))
          state_name)
        state_name, true)

theorem run_artifact_lookups (fs : FS) (n : PyStr) :
    (write_import_script (write_sqlite_schema fs n) n) "schema.sql"
      = some (schemaText n)
    ∧ (write_import_script (write_sqlite_schema fs n) n) "import_to_sqlite.sh"
      = some (importScriptText n) := by
  constructor
  · rw [write_import_script, fsInsert_other _ _ _ _ (by decide),
      write_sqlite_schema, fsInsert_same]
  · rw [write_import_script, fsInsert_same]

/-- main (parse_state_data.py lines 483-531): if the resolved data directory
    does not exist, print the error message and exit with status 1, touching
    no output; otherwise run the parser (whose uncaught IndexError would end
    the interpreter with status 1, the output directory untouched, since the
    crash precedes every write). The result is (exit status, final output
    directory, printed configuration error if any). -/
def mainModel (dir_exists : Bool) (dir : PyStr) (inv sta res : List FileContent)
    (state_name : PyStr) (fs : FS) : Nat × FS × Option PyStr :=
  if dir_exists then
    match runModel inv sta res state_name fs with
    | some (fs2, _) => (0, fs2, none)
    | none => (1, fs, none)
  else
    (1, fs, some (str "ERROR: Data directory not found: " ++ dir))


/-- Claim C8: when parameters.csv, stations.csv and results.csv all already
    exist in the output directory, the run performs no extraction, leaves the
    three delimited files exactly as found (any injected content survives),
    and still writes the schema and load-script artifacts with exactly the
    contents any run with the same region name produces. -/
theorem C8_idempotent_skip (inv sta res : List FileContent) (n : PyStr)
    (fs : FS) (pc sc rc : PyStr)
    (h1 : fs "parameters.csv" = some pc) (h2 : fs "stations.csv" = some sc)
    (h3 : fs "results.csv" = some rc) :
    ((runModel inv sta res n fs).map (fun p => p.2) = some false)
    ∧ ((runModel inv sta res n fs).map (fun p => p.1 "parameters.csv")
        = some (some pc))
    ∧ ((runModel inv sta res n fs).map (fun p => p.1 "stations.csv")
        = some (some sc))
    ∧ ((runModel inv sta res n fs).map (fun p => p.1 "results.csv")
        = some (some rc))
    ∧ ((runModel inv sta res n fs).map (fun p => p.1 "schema.sql")
        = some (some (schemaText n)))
    ∧ ((runModel inv sta res n fs).map (fun p => p.1 "import_to_sqlite.sh")
        = some (some (importScriptText n)))
    ∧ (∀ (inv2 sta2 res2 : List FileContent) (fs0 fs1 : FS) (b : Bool),
        runModel inv2 sta2 res2 n fs0 = some (fs1, b) →
        fs1 "schema.sql" = some (schemaText n)
        ∧ fs1 "import_to_sqlite.sh" = some (importScriptText n)) := by
  have hcond : ((fs "parameters.csv").isSome && (fs "stations.csv").isSome
      && (fs "results.csv").isSome) = true := by
    rw [h1, h2, h3]; rfl
  have hrun : runModel inv sta res n fs
      = some (write_import_script (write_sqlite_schema fs n) n, false) := by
    simp only [runModel]
    rw [if_pos hcond]
  have hkeep : ∀ k : String, k ≠ "import_to_sqlite.sh" → k ≠ "schema.sql" →
      (write_import_script (write_sqlite_schema fs n) n) k = fs k := by
    intro k hk1 hk2
    rw [write_import_script, fsInsert_other _ _ _ _ hk1, write_sqlite_schema,
      fsInsert_other _ _ _ _ hk2]
  refine ⟨by rw [hrun]; rfl, ?_, ?_, ?_, ?_, ?_, ?_⟩
  · rw [hrun]
    show some ((write_import_script (write_sqlite_schema fs n) n) "parameters.csv")
      = some (some pc)
    rw [hkeep "parameters.csv" (by decide) (by decide), h1]
  · rw [hrun]
    show some ((write_import_script (write_sqlite_schema fs n) n) "stations.csv")
      = some (some sc)
    rw [hkeep "stations.csv" (by decide) (by decide), h2]
  · rw [hrun]
    show some ((write_import_script (write_sqlite_schema fs n) n) "results.csv")
      = some (some rc)
    rw [hkeep "results.csv" (by decide) (by decide), h3]
  · rw [hrun]
    show some ((write_import_script (write_sqlite_schema fs n) n) "schema.sql")
      = some (some (schemaText n))
    rw [(run_artifact_lookups fs n).1]
  · rw [hrun]
    show some ((write_import_script (write_sqlite_schema fs n) n) "import_to_sqlite.sh")
      = some (some (importScriptText n))
    rw [(run_artifact_lookups fs n).2]
  · intro inv2 sta2 res2 fs0 fs1 b h
    simp only [runModel] at h
    split at h
    · have hp := Option.some.inj h
      have hfs : write_import_script (write_sqlite_schema fs0 n) n = fs1 :=
        congrArg Prod.fst hp
      rw [← hfs]
      exact run_artifact_lookups fs0 n
    · split at h
      · cases h
      · have hp := Option.some.inj h
        have hfs : write_import_script (write_sqlite_schema _ n) n = fs1 :=
          congrArg Prod.fst hp
        rw [← hfs]
        exact run_artifact_lookups _ n

/-- Claim C8, witness: a concrete output directory holding the three csv
    files, one of them carrying injected content, goes through a run that
    extracts nothing and keeps the injected content unchanged. -/
theorem C8_witness :
    ((runModel [] [] [] (str "Washington")
        (fun k => if k = "parameters.csv" then some (str "P")
          else if k = "stations.csv" then some (str "S")
          else if k = "results.csv" then some (str "R-injected") else none)).map
        (fun p => p.2) = some false)
    ∧ ((runModel [] [] [] (str "Washington")
        (fun k => if k = "parameters.csv" then some (str "P")
          else if k = "stations.csv" then some (str "S")
          else if k = "results.csv" then some (str "R-injected") else none)).map
        (fun p => p.1 "results.csv") = some (some (str "R-injected"))) := by
  constructor
  · exact (C8_idempotent_skip [] [] [] (str "Washington") _
      (str "P") (str "S") (str "R-injected") (by decide) (by decide) (by decide)).1
  · exact (C8_idempotent_skip [] [] [] (str "Washington") _
      (str "P") (str "S") (str "R-injected") (by decide) (by decide) (by decide)).2.2.2.1

/-- Claim C9: when the resolved input directory is absent, the command prints
    the descriptive error message and stops with exit status 1, leaving the
    output directory untouched; when the directory is present, the
    configuration check does not terminate the process: the run proceeds and
    a completed run exits with status 0. -/
theorem C9_config_check (dir_exists : Bool) (dir : PyStr)
    (inv sta res : List FileContent) (n : PyStr) (fs : FS) :
    (dir_exists = false →
      mainModel dir_exists dir inv sta res n fs
        = (1, fs, some (str "ERROR: Data directory not found: " ++ dir)))
    ∧ (dir_exists = true → ∀ (fs2 : FS) (b : Bool),
        runModel inv sta res n fs = some (fs2, b) →
        mainModel dir_exists dir inv sta res n fs = (0, fs2, none)) := by
  constructor
  · intro h
    subst h
    rfl
  · intro h fs2 b hrun
    subst h
    simp only [mainModel, if_pos]
    rw [hrun]

/-- Claim C9, witness: the check theorem applied to an absent directory, and
    to a present directory with no matched files and an empty output
    directory. -/
theorem C9_witness :
    (mainModel false (str "data/Washington") [] [] [] (str "Washington")
        (fun _ => none)
      = (1, (fun _ => none : FS),
         some (str "ERROR: Data directory not found: " ++ str "data/Washington")))
    ∧ (mainModel true (str "data/Washington") [] [] [] (str "Washington")
        (fun _ => none)
      = (0, write_import_script
          (write_sqlite_schema
            (write_csv_files (fun _ => none) (parse_inventory_files []) []
              (parse_result_files []))
            (str "Washington"))
          (str "Washington"), none)) := by
  constructor
  · exact (C9_config_check false (str "data/Washington") [] [] []
      (str "Washington") (fun _ => none)).1 rfl
  · exact (C9_config_check true (str "data/Washington") [] [] []
      (str "Washington") (fun _ => none)).2 rfl _ true rfl

end WaterSql
